import Mathlib

/-!
Verification of the composite decision-scoring engine of this repository.

The Python sources are shallowly embedded into Lean:
* Python floats are modelled as rationals (`ℚ`); all the arithmetic the
  claims are about is order/bound arithmetic which `ℚ` reflects faithfully.
* `math.log` is an opaque monotone real routine; the scorer only feeds its
  output through `max 0 (min 1 _)`, so it is taken as an abstract function
  parameter `log : ℚ → ℚ` wherever the source calls it.
* `None`-able Python values become `Option`; Python dict rows become
  structures with the same field names and the same `dict.get` defaults.
* Python truthiness (`if x:`) is made explicit (`none` and `0` and `""`
  are falsy).
-/

namespace Spec2Proof

/-- Python `max(0.0, min(1.0, x))`. -/
def clamp01 (x : ℚ) : ℚ := max 0 (min 1 x)

/-- Python truthiness of an optional number: `None` and `0` are falsy. -/
def truthyQ : Option ℚ → Bool
  | none => false
  | some v => v != 0

/-- Python truthiness of an optional string: `None` and `""` are falsy. -/
def truthyS : Option String → Bool
  | none => false
  | some s => s != ""

/-- Python `a or b` on optional numbers: `a` if truthy, else `b`. -/
def pyOrQ (a b : Option ℚ) : Option ℚ := if truthyQ a then a else b

/-- Round half to even to an integer (Python `round`). -/
def roundHalfEven (x : ℚ) : ℤ :=
  let f := ⌊x⌋
  let r := x - (f : ℚ)
  if r < 1/2 then f
  else if 1/2 < r then f + 1
  else if 2 ∣ f then f else f + 1

/-- Python `round(x, n)` (banker's rounding at `n` decimal digits). -/
def pyRound (x : ℚ) (n : ℕ) : ℚ :=
  (roundHalfEven (x * (10 : ℚ) ^ n) : ℚ) / (10 : ℚ) ^ n

/-- Python `int(x)` on a float: truncation toward zero. -/
def pyInt (x : ℚ) : ℤ := if 0 ≤ x then ⌊x⌋ else ⌈x⌉

/-- ASCII upper-casing of one character (`str.upper` acts only on ASCII
letters for the codes this program handles; written as an explicit table
so concrete instances evaluate inside proofs). -/
def pyCharUpper (c : Char) : Char :=
  if c = 'a' then 'A' else if c = 'b' then 'B' else if c = 'c' then 'C'
  else if c = 'd' then 'D' else if c = 'e' then 'E' else if c = 'f' then 'F'
  else if c = 'g' then 'G' else if c = 'h' then 'H' else if c = 'i' then 'I'
  else if c = 'j' then 'J' else if c = 'k' then 'K' else if c = 'l' then 'L'
  else if c = 'm' then 'M' else if c = 'n' then 'N' else if c = 'o' then 'O'
  else if c = 'p' then 'P' else if c = 'q' then 'Q' else if c = 'r' then 'R'
  else if c = 's' then 'S' else if c = 't' then 'T' else if c = 'u' then 'U'
  else if c = 'v' then 'V' else if c = 'w' then 'W' else if c = 'x' then 'X'
  else if c = 'y' then 'Y' else if c = 'z' then 'Z' else c

/-- Python `str.upper()`. -/
def pyUpper (s : String) : String := String.mk (s.data.map pyCharUpper)

/-! ## DS-02 data model (`backend/data/ds02_worldbank.py`) -/

/-- One country row of DS-02 raw data (`DS02Record`): per indicator an
optional `(value, year)` pair, `none` meaning missing. -/
structure DS02Record where
  country_iso3 : String
  country_iso2 : String := ""
  snapshot_date : String := ""
  gdp_usd : Option (ℚ × ℤ) := none
  gdp_per_capita_usd : Option (ℚ × ℤ) := none
  gdp_growth_pct : Option (ℚ × ℤ) := none
  import_value_usd : Option (ℚ × ℤ) := none
  import_growth_pct : Option (ℚ × ℤ) := none
  inflation_pct : Option (ℚ × ℤ) := none
  population : Option (ℚ × ℤ) := none
deriving Repr

/-- The WSB indicator field names, in source dict order
(`WSB_INDICATORS.keys()`). -/
def WSB_INDICATOR_NAMES : List String :=
  ["gdp_usd", "gdp_per_capita_usd", "gdp_growth_pct", "import_value_usd",
   "import_growth_pct", "inflation_pct", "population"]

/-- `DS02Record.get_value`: dynamic field access by name, value component
only (`getattr` returns `None` for unknown names via the default). -/
def DS02Record.get_value (r : DS02Record) (field_name : String) : Option ℚ :=
  let entry : Option (ℚ × ℤ) :=
    match field_name with
    | "gdp_usd" => r.gdp_usd
    | "gdp_per_capita_usd" => r.gdp_per_capita_usd
    | "gdp_growth_pct" => r.gdp_growth_pct
    | "import_value_usd" => r.import_value_usd
    | "import_growth_pct" => r.import_growth_pct
    | "inflation_pct" => r.inflation_pct
    | "population" => r.population
    | _ => none
  entry.map Prod.fst

/-- `DS02Record.get_year`: year component of an indicator entry. -/
def DS02Record.get_year (r : DS02Record) (field_name : String) : Option ℤ :=
  let entry : Option (ℚ × ℤ) :=
    match field_name with
    | "gdp_usd" => r.gdp_usd
    | "gdp_per_capita_usd" => r.gdp_per_capita_usd
    | "gdp_growth_pct" => r.gdp_growth_pct
    | "import_value_usd" => r.import_value_usd
    | "import_growth_pct" => r.import_growth_pct
    | "inflation_pct" => r.inflation_pct
    | "population" => r.population
    | _ => none
  entry.map Prod.snd

/-- `DS02Record.missing_fields`: names of indicators with no value. -/
def DS02Record.missing_fields (r : DS02Record) : List String :=
  WSB_INDICATOR_NAMES.filter (fun name => (r.get_value name).isNone)

/-- `DS02Record.is_valid_for_scoring`: GDP present and `> 0`, import value
present and `≥ 0`. -/
def DS02Record.is_valid_for_scoring (r : DS02Record) : Bool :=
  match r.get_value "gdp_usd", r.get_value "import_value_usd" with
  | some gdp, some imp => decide (0 < gdp) && decide (0 ≤ imp)
  | _, _ => false

/-- `DS02Record.warnings`: anomaly and missing-data warning strings. -/
def DS02Record.warnings (r : DS02Record) : List String :=
  let w1 : List String :=
    match r.get_value "gdp_usd" with
    | some gdp =>
        if gdp ≤ 0 then
          ["DS-02: GDP <= 0 for " ++ r.country_iso3 ++
           " (value=" ++ toString gdp ++ ")"]
        else []
    | none => []
  let w2 : List String :=
    match r.get_value "import_value_usd" with
    | some imp =>
        if imp < 0 then
          ["DS-02: Import value < 0 for " ++ r.country_iso3 ++
           " (value=" ++ toString imp ++ ")"]
        else []
    | none => []
  let w3 : List String :=
    (r.missing_fields).map
      (fun name => "DS-02: " ++ name ++ " unavailable for " ++ r.country_iso3)
  w1 ++ w2 ++ w3

/-! ## DS-02 scorer (`backend/services/ds02_scorer.py`) -/

/-- `CLIP_RANGES`: fixed clipping bounds per clip-normalized field. -/
def CLIP_RANGES (field_name : String) : Option (ℚ × ℚ) :=
  match field_name with
  | "gdp_growth_pct" => some (-5, 10)
  | "import_growth_pct" => some (-5, 15)
  | "inflation_pct" => some (0, 15)
  | _ => none

/-- `WEIGHTS`: the fixed EconomicScore weight vector
(0.30 / 0.25 / 0.20 / 0.15 / -0.10). Keys outside the dict are modelled
as weight 0 (the source never accesses them). -/
def WEIGHTS (field_name : String) : ℚ :=
  match field_name with
  | "gdp_usd" => 30/100
  | "import_value_usd" => 25/100
  | "gdp_growth_pct" => 20/100
  | "import_growth_pct" => 15/100
  | "inflation_pct" => -10/100
  | _ => 0

/-- Log-normalization field names (`LOG_NORM_FIELDS`). -/
def LOG_NORM_FIELDS : List String := ["gdp_usd", "import_value_usd", "population"]

/-- Normalized DS-02 row plus EconomicScore (`NormalizedDS02`), with the
source dataclass defaults. -/
structure NormalizedDS02 where
  country_iso3 : String
  year : Option ℤ := none
  norm_gdp : Option ℚ := none
  norm_import_value : Option ℚ := none
  norm_gdp_growth : Option ℚ := none
  norm_import_growth : Option ℚ := none
  norm_inflation : Option ℚ := none
  norm_population : Option ℚ := none
  economic_score : ℚ := 0
  missing_fields : List String := []
  warnings : List String := []
  excluded : Bool := false
  exclude_reason : String := ""
deriving Repr

/-- `DS02Scorer._compute_log_stats_from` for one field: `(min, max)` of
`log` over the positive present values, `(0, 1)` if none. -/
def logStatsFor (log : ℚ → ℚ) (records : List DS02Record)
    (field_name : String) : ℚ × ℚ :=
  let values : List ℚ := records.filterMap (fun rec =>
    match rec.get_value field_name with
    | some v => if 0 < v then some (log v) else none
    | none => none)
  match values with
  | [] => (0, 1)
  | v :: vs => (vs.foldl min v, vs.foldl max v)

/-- `DS02Scorer._norm_log`: log-scale min-max normalization clamped to
[0,1]; `None` and non-positive values normalize to `None`; all-equal
statistics give 0.5. `stats` is the `_log_stats` entry for the field
(the dict-get default `(0, 1)` is applied by the caller). -/
def norm_log (log : ℚ → ℚ) (stats : ℚ × ℚ) (value : Option ℚ) : Option ℚ :=
  match value with
  | none => none
  | some v =>
    if v ≤ 0 then none
    else
      let min_log := stats.1
      let max_log := stats.2
      let denom := max_log - min_log
      if denom = 0 then some (1/2)
      else some (clamp01 ((log v - min_log) / denom))

/-- `DS02Scorer._norm_clip`: clip to the field's fixed range then linearly
rescale to [0,1]. A field without a clip range would raise `KeyError` in
the source; it is modelled as `none` and never reached (the scorer only
clips the three `CLIP_RANGES` fields). -/
def norm_clip (value : Option ℚ) (field_name : String) : Option ℚ :=
  match value, CLIP_RANGES field_name with
  | none, _ => none
  | some _, none => none
  | some v, some (lower, upper) =>
    let clipped := max lower (min upper v)
    let denom := upper - lower
    if denom = 0 then some 0
    else some ((clipped - lower) / denom)

/-- `DS02Scorer._compute_economic_score`: weighted sum over the non-null
normalized indicators (missing indicator ⇒ contribution 0, no weight
redistribution), then `max(0, score)`. -/
def compute_economic_score (norm : NormalizedDS02) : ℚ :=
  let score : ℚ := 0
  let score := match norm.norm_gdp with
    | some v => score + WEIGHTS "gdp_usd" * v
    | none => score
  let score := match norm.norm_import_value with
    | some v => score + WEIGHTS "import_value_usd" * v
    | none => score
  let score := match norm.norm_gdp_growth with
    | some v => score + WEIGHTS "gdp_growth_pct" * v
    | none => score
  let score := match norm.norm_import_growth with
    | some v => score + WEIGHTS "import_growth_pct" * v
    | none => score
  let score := match norm.norm_inflation with
    | some v => score + WEIGHTS "inflation_pct" * v
    | none => score
  max 0 score

/-- Exclusion reason chosen in `score_all` for an invalid record, in the
source's branch order. -/
def excludeReasonFor (rec : DS02Record) : String :=
  match rec.get_value "gdp_usd" with
  | none => "GDP missing"
  | some gdp =>
    if gdp ≤ 0 then "GDP anomaly (" ++ toString gdp ++ ")"
    else
      match rec.get_value "import_value_usd" with
      | none => "Import value missing"
      | some imp =>
        if imp < 0 then "Import value anomaly (" ++ toString imp ++ ")"
        else "Required indicators missing"

/-- Loop body of `DS02Scorer.score_all` for one record, given the log
statistics (`stats` maps a field name to its `_log_stats` entry). -/
def scoreRecord (log : ℚ → ℚ) (stats : String → ℚ × ℚ)
    (rec : DS02Record) : NormalizedDS02 :=
  let base : NormalizedDS02 :=
    { country_iso3 := rec.country_iso3
      year := rec.get_year "gdp_usd"
      missing_fields := rec.missing_fields
      warnings := rec.warnings }
  if !rec.is_valid_for_scoring then
    { base with excluded := true, exclude_reason := excludeReasonFor rec }
  else
    let withNorms :=
      { base with
        norm_gdp := norm_log log (stats "gdp_usd") (rec.get_value "gdp_usd")
        norm_import_value :=
          norm_log log (stats "import_value_usd")
            (rec.get_value "import_value_usd")
        norm_population :=
          norm_log log (stats "population") (rec.get_value "population")
        norm_gdp_growth :=
          norm_clip (rec.get_value "gdp_growth_pct") "gdp_growth_pct"
        norm_import_growth :=
          norm_clip (rec.get_value "import_growth_pct") "import_growth_pct"
        norm_inflation :=
          norm_clip (rec.get_value "inflation_pct") "inflation_pct" }
    { withNorms with economic_score := compute_economic_score withNorms }

/-- `DS02Scorer.score_all`: log statistics over the valid records, then
one `NormalizedDS02` per input record (excluded ones included). -/
def score_all (log : ℚ → ℚ) (records : List DS02Record) :
    List NormalizedDS02 :=
  let valid_records := records.filter (fun r => r.is_valid_for_scoring)
  records.map (scoreRecord log (logStatsFor log valid_records))

/-! ## Missing-data handler (`backend/utils/missing_data.py`) -/

/-- A dynamically typed Python value held in `REGION_DEFAULTS` (numeric
statistics and one categorical risk grade). -/
inductive PyVal where
  | num (q : ℚ)
  | str (s : String)
deriving Repr, DecidableEq

/-- One entry of the imputation log (`MissingFieldInfo`); original values
are optional dynamic values. -/
structure MissingFieldInfo where
  field_name : String
  original_value : Option PyVal
  imputed_value : PyVal
  imputation_method : String
  is_critical : Bool := false
deriving Repr, DecidableEq

/-- `MissingDataHandler.REGION_DEFAULTS`: per-region statistical defaults,
keyed by region then field name. -/
def REGION_DEFAULTS (region : String) (field_name : String) : Option PyVal :=
  let pick (gdp growth infl : ℚ) (grade : String) : Option PyVal :=
    match field_name with
    | "gdp" => some (.num gdp)
    | "growth_rate" => some (.num growth)
    | "inflation_rate" => some (.num infl)
    | "risk_grade" => some (.str grade)
    | _ => none
  match region with
  | "asia" => pick 1500 4 3 "B"
  | "europe" => pick 2000 (3/2) (5/2) "A"
  | "americas" => pick 3000 (5/2) (7/2) "B"
  | "middle_east" => pick 500 3 4 "B"
  | "africa" => pick 200 (7/2) 6 "C"
  | "default" => pick 1000 (5/2) 3 "C"
  | _ => none

/-- `MissingDataHandler.COUNTRY_REGION_MAP` as an association list. -/
def COUNTRY_REGION_MAP : List (String × String) :=
  [("JP", "asia"), ("CN", "asia"), ("KR", "asia"), ("VN", "asia"),
   ("TH", "asia"), ("ID", "asia"), ("MY", "asia"), ("SG", "asia"),
   ("PH", "asia"), ("IN", "asia"), ("TW", "asia"), ("HK", "asia"),
   ("DE", "europe"), ("GB", "europe"), ("FR", "europe"), ("IT", "europe"),
   ("NL", "europe"), ("ES", "europe"), ("PL", "europe"), ("BE", "europe"),
   ("US", "americas"), ("CA", "americas"), ("MX", "americas"),
   ("BR", "americas"), ("AR", "americas"), ("CL", "americas"),
   ("CO", "americas"),
   ("AE", "middle_east"), ("SA", "middle_east"), ("QA", "middle_east"),
   ("KW", "middle_east"), ("BH", "middle_east"), ("OM", "middle_east"),
   ("ZA", "africa"), ("EG", "africa"), ("NG", "africa"), ("KE", "africa")]

/-- `MissingDataHandler.get_region`: country code (upper-cased) to region,
`"default"` for unknown codes. -/
def get_region (country_code : String) : String :=
  match COUNTRY_REGION_MAP.lookup (pyUpper country_code) with
  | some region => region
  | none => "default"

/-- `MissingDataHandler.impute_numeric`. The handler's `_missing_log` is
threaded explicitly: the result is `((value, method), new_log)`.
The returned value is dynamic (`PyVal`) because the region-defaults dict
holds the categorical `risk_grade` alongside the numeric fields and the
source returns whatever the dict holds. -/
def impute_numeric (log : List MissingFieldInfo) (value : Option ℚ)
    (field_name : String) (country_code : Option String) (fallback : ℚ) :
    (PyVal × String) × List MissingFieldInfo :=
  match value with
  | some v =>
    if v ≠ 0 then ((.num v, "original"), log)
    else imputeNumericMissing log (some v) field_name country_code fallback
  | none => imputeNumericMissing log none field_name country_code fallback
where
  /-- The region-default / fallback tail of `impute_numeric`, reached when
  the original value is `None` or `0`. -/
  imputeNumericMissing (log : List MissingFieldInfo) (value : Option ℚ)
      (field_name : String) (country_code : Option String) (fallback : ℚ) :
      (PyVal × String) × List MissingFieldInfo :=
    let orig : Option PyVal := value.map PyVal.num
    let fallbackResult : (PyVal × String) × List MissingFieldInfo :=
      ((.num fallback, "fallback"),
       log ++ [{ field_name := field_name, original_value := orig,
                 imputed_value := .num fallback,
                 imputation_method := "fallback", is_critical := true }])
    if truthyS country_code then
      let region := get_region (country_code.getD "")
      match REGION_DEFAULTS region field_name with
      | some imputed =>
        ((imputed, "region_avg:" ++ region),
         log ++ [{ field_name := field_name, original_value := orig,
                   imputed_value := imputed,
                   imputation_method := "region_avg:" ++ region,
                   is_critical := true }])
      | none => fallbackResult
    else fallbackResult

/-! ## Compliance checker (`backend/utils/compliance.py`) -/

/-- Compliance status (`ComplianceStatus`). -/
inductive ComplianceStatus where
  | ok
  | restricted
  | blocked
deriving Repr, DecidableEq

/-- One section of the blocklist configuration: country list, per-country
reasons, per-country penalties. -/
structure BlocklistSection where
  countries : List String := []
  reasons : List (String × String) := []
  score_penalty : List (String × ℤ) := []
deriving Repr

/-- The blocklist configuration document. -/
structure ComplianceConfig where
  hard_block : BlocklistSection := {}
  restricted : BlocklistSection := {}
  high_risk_warning : BlocklistSection := {}
deriving Repr

/-- `ComplianceChecker._get_default_config`: built-in conservative list
used when no config file is readable. -/
def defaultComplianceConfig : ComplianceConfig :=
  { hard_block :=
      { countries := ["KP", "SY", "IR", "CU"]
        reasons := [("KP", "UN/미국 대북제재"), ("SY", "시리아 제재"),
                    ("IR", "이란 제재"), ("CU", "쿠바 금수조치")] }
    restricted := { countries := ["RU", "BY", "VE", "MM", "AF"] }
    high_risk_warning := {} }

/-- The info dict returned by `ComplianceChecker.check`. -/
structure ComplianceCheckInfo where
  country_code : String
  compliance_status : String
  reason : Option String
  action : Option String
  score_penalty : ℤ
  warning : Option String
deriving Repr

/-- `ComplianceChecker.check`: classify a country code against the loaded
configuration; unknown codes are `ok` with penalty 0. -/
def complianceCheck (cfg : ComplianceConfig) (country_code : String) :
    ComplianceStatus × ComplianceCheckInfo :=
  let code := pyUpper country_code
  if code ∈ cfg.hard_block.countries then
    let reason := (cfg.hard_block.reasons.lookup code).getD "수출 금지 대상국"
    (.blocked,
     { country_code := code, compliance_status := "blocked"
       reason := some reason
       action := some "이 국가는 수출이 금지되어 있습니다."
       score_penalty := -100, warning := none })
  else if code ∈ cfg.restricted.countries then
    let reason := (cfg.restricted.reasons.lookup code).getD "수출 제한 대상국"
    let penalty := (cfg.restricted.score_penalty.lookup code).getD (-20)
    (.restricted,
     { country_code := code, compliance_status := "restricted"
       reason := some reason
       action := some "수출이 제한되어 있습니다. 추가 검토가 필요합니다."
       score_penalty := penalty
       warning := some ("경고: " ++ code ++ "는 " ++ reason ++
                        "로 인해 수출이 제한됩니다.") })
  else if code ∈ cfg.high_risk_warning.countries then
    let reason := (cfg.high_risk_warning.reasons.lookup code).getD "고위험 지역"
    let penalty := (cfg.high_risk_warning.score_penalty.lookup code).getD (-10)
    (.ok,
     { country_code := code, compliance_status := "ok"
       reason := none, action := none, score_penalty := penalty
       warning := some ("주의: " ++ code ++ "는 " ++ reason ++ "로 분류됩니다.") })
  else
    (.ok,
     { country_code := code, compliance_status := "ok"
       reason := none, action := none, score_penalty := 0, warning := none })

/-- One entry of the exclusion/restriction log built by
`filter_countries`. -/
structure ExclusionEntry where
  country_code : String
  action : String
  reason : Option String
  penalty : Option ℤ := none
deriving Repr

/-- Loop body of `ComplianceChecker.filter_countries`. -/
def filterCountriesStep (cfg : ComplianceConfig)
    (acc : List String × List ExclusionEntry) (code : String) :
    List String × List ExclusionEntry :=
  let (allowed, info) := acc
  let (status, checkInfo) := complianceCheck cfg code
  match status with
  | .blocked =>
    (allowed,
     info ++ [{ country_code := code, action := "excluded",
                reason := checkInfo.reason }])
  | .restricted =>
    (allowed ++ [code],
     info ++ [{ country_code := code, action := "restricted",
                reason := checkInfo.reason,
                penalty := some checkInfo.score_penalty }])
  | .ok => (allowed ++ [code], info)

/-- `ComplianceChecker.filter_countries`: drop blocked codes, keep the
others, and log exclusions/restrictions. -/
def filter_countries (cfg : ComplianceConfig) (country_codes : List String) :
    List String × List ExclusionEntry :=
  country_codes.foldl (filterCountriesStep cfg) ([], [])

/-- A row of the recommendation pipeline as far as compliance filtering is
concerned (`export_recs` entry): resolved country code plus the
compliance annotations the filter step may add. -/
structure RecRow where
  country_code : String
  compliance_penalty : Option ℤ := none
  compliance_warning : Option String := none
deriving Repr, DecidableEq

/-- Step 3 of `RecommendationService.get_recommendations`: blocked rows
are dropped (logged in `excluded_countries`), restricted rows are kept
with `compliance_penalty`/`compliance_warning` set, others pass through
unchanged. This is the loop body. -/
def filterRecRowsStep (cfg : ComplianceConfig)
    (acc : List RecRow × List ExclusionEntry) (row : RecRow) :
    List RecRow × List ExclusionEntry :=
  let (kept, excludedLog) := acc
  let (status, info) := complianceCheck cfg row.country_code
  match status with
  | .blocked =>
    (kept,
     excludedLog ++ [{ country_code := row.country_code,
                       action := "excluded", reason := info.reason }])
  | .restricted =>
    (kept ++ [{ row with compliance_penalty := some info.score_penalty,
                         compliance_warning := info.warning }],
     excludedLog)
  | .ok => (kept ++ [row], excludedLog)

/-- Step 3 of `get_recommendations` as a fold of `filterRecRowsStep`. -/
def filterRecRows (cfg : ComplianceConfig) (rows : List RecRow) :
    List RecRow × List ExclusionEntry :=
  rows.foldl (filterRecRowsStep cfg) ([], [])

/-! ## Matching service (`backend/services/matching_service.py`) -/

/-- `ProfileType`. -/
inductive ProfileType where
  | seller
  | buyer
deriving Repr, DecidableEq

/-- A seller/buyer profile dict, with the `dict.get` defaults the matching
code uses (`moq` defaults to 0, `price_range` to `[0, 0]`, the optional
numeric fields to `None`). `compliance_info` is the annotation
`find_matches` attaches after the compliance check. -/
structure MatchProfile where
  id : String := "unknown"
  company_name : Option String := none
  country : String := ""
  hs_code : String := ""
  moq : ℚ := 0
  annual_capacity : Option ℚ := none
  min_order_usd : Option ℚ := none
  price_range : List ℚ := [0, 0]
  certifications : List String := []
  required_certs : List String := []
  preferred_certs : List String := []
  compliance_info : Option ComplianceCheckInfo := none
deriving Repr

/-- Python substring test `a in b` (after the callers' `upper()`). -/
def strContains (b a : String) : Bool := decide (a.toList <:+: b.toList)

/-- `unit_price` of `_evaluate_moq`: midpoint of the candidate's price
range, 5.0 when the range has fewer than two entries. -/
def moqUnitPrice (candidate : MatchProfile) : ℚ :=
  match candidate.price_range with
  | a :: b :: _ => (a + b) / 2
  | _ => 5

/-- `order_value` of `_evaluate_moq`: `candidate_moq * unit_price` when
the candidate MOQ is truthy, else 0. -/
def moqOrderValue (candidate : MatchProfile) : ℚ :=
  if candidate.moq ≠ 0 then candidate.moq * moqUnitPrice candidate else 0

/-- Hard gate 1 of `_evaluate_moq` (capacity / 3x-MOQ check, direction
depending on the profile type): `some reason` on failure. -/
def moqCapacityFail (profile candidate : MatchProfile)
    (profile_type : ProfileType) : Option String :=
  match profile_type with
  | .seller =>
    match pyOrQ profile.annual_capacity candidate.annual_capacity with
    | some cap =>
      if cap ≠ 0 ∧ cap < candidate.moq then
        some ("바이어 MOQ(" ++ toString candidate.moq ++
              ")가 연간 생산능력(" ++ toString cap ++ ")을 초과")
      else none
    | none => none
  | .buyer =>
    if profile.moq ≠ 0 ∧ profile.moq * 3 < candidate.moq then
      some ("셀러 MOQ(" ++ toString candidate.moq ++
            ")가 원하는 MOQ(" ++ toString profile.moq ++ ")의 3배 초과")
    else none

/-- Hard gate 2 of `_evaluate_moq` (minimum order value):
`some reason` on failure. -/
def moqMovFail (profile candidate : MatchProfile) : Option String :=
  match pyOrQ profile.min_order_usd candidate.min_order_usd with
  | some mov =>
    if mov ≠ 0 ∧ moqOrderValue candidate < mov then
      some ("주문금액($" ++ toString (moqOrderValue candidate) ++
            ")이 최소주문금액($" ++ toString mov ++ ") 미달")
    else none
  | none => none

/-- Soft score of `_evaluate_moq`: ratio-based compatibility from the
relative deviation of the two MOQs, 0.5 when either is non-positive. -/
def moqSoft (profile_moq candidate_moq : ℚ) : ℚ :=
  if 0 < profile_moq ∧ 0 < candidate_moq then
    let num := |profile_moq - candidate_moq|
    let den := max profile_moq candidate_moq
    let r := num / den
    if r ≤ 1/5 then 1
    else if r ≤ 1/2 then 7/10
    else if r ≤ 1 then 2/5
    else 1/5
  else 1/2

/-- `MatchingService._evaluate_moq`: hard gates (capacity, MOV) in source
order, then the soft score. Returns
`(gate_passed, soft_score, order_value_usd, failure_reason)`. -/
def evaluate_moq (profile candidate : MatchProfile)
    (profile_type : ProfileType) : Bool × ℚ × ℚ × String :=
  let order_value := moqOrderValue candidate
  match moqCapacityFail profile candidate profile_type with
  | some reason => (false, 0, order_value, reason)
  | none =>
    match moqMovFail profile candidate with
    | some reason => (false, 0, order_value, reason)
    | none => (true, moqSoft profile.moq candidate.moq, order_value, "")

/-- Result dict of `MatchingService._evaluate_certifications`. Python set
iteration order is unspecified; sets are modelled as deduplicated lists
in first-occurrence order. -/
structure CertResult where
  required_passed : Bool
  missing_required : List String
  matched_required : List String
  matched_preferred : List String
  matched_all : List String
  required_score : ℚ
  preferred_score : ℚ
deriving Repr

/-- `MatchingService._evaluate_certifications`: required vs preferred
certification matching, with the `certifications` → `required_certs`
back-compat migration. -/
def evaluate_certifications (profile candidate : MatchProfile) : CertResult :=
  let profile_required :=
    if profile.required_certs = [] ∧ profile.certifications ≠ [] then
      profile.certifications
    else profile.required_certs
  let candidate_certs := (candidate.certifications.map pyUpper).dedup
  let required_set := (profile_required.map pyUpper).dedup
  let matched_required := required_set.filter (fun c => c ∈ candidate_certs)
  let missing_required := required_set.filter (fun c => c ∉ candidate_certs)
  let required_score : ℚ :=
    if required_set ≠ [] then
      (matched_required.length : ℚ) / (required_set.length : ℚ)
    else 1
  let required_passed :=
    if required_set ≠ [] then missing_required.length = 0 else true
  let preferred_set := (profile.preferred_certs.map pyUpper).dedup
  let matched_preferred := preferred_set.filter (fun c => c ∈ candidate_certs)
  let preferred_score : ℚ :=
    if preferred_set ≠ [] then
      (matched_preferred.length : ℚ) / (preferred_set.length : ℚ)
    else 0
  { required_passed := required_passed
    missing_required := missing_required
    matched_required := matched_required
    matched_preferred := matched_preferred
    matched_all := (matched_required ++ matched_preferred).dedup
    required_score := required_score
    preferred_score := preferred_score }

/-- The fraud-risk dict a candidate's country may carry (`fraud_results`
entry); `none` models an empty/missing dict (falsy in the source). -/
structure FraudRisk where
  fraud_type_distribution : Option (List (String × ℕ)) := none
  fraud_types : Option (List (String × ℕ)) := none
  case_count : ℕ := 0
  risk_level : String := "SAFE"
deriving Repr

/-- `FRAUD_TYPE_WEIGHTS[t]["base_penalty"]` with the source's
`.get(t, FRAUD_TYPE_WEIGHTS["기타"])` default. -/
def fraudBasePenalty (fraud_type : String) : ℤ :=
  match fraud_type with
  | "이메일해킹" => -20
  | "금품사취" => -18
  | "선적서류위조" => -15
  | "품질사기" => -12
  | "기업사칭" => -15
  | "인증서위조" => -10
  | "운송사기" => -12
  | _ => -8

/-- `MatchingService._calculate_fraud_penalty`: per-type damped penalties
(`base_penalty / 5 * count`), or case-count tiers when no type
distribution is known, capped below at `FRAUD_PENALTY_CAP = -25`. -/
def calculate_fraud_penalty (fraud_risk : Option FraudRisk) : ℤ :=
  match fraud_risk with
  | none => 0
  | some fr =>
    let fraud_types : List (String × ℕ) :=
      match fr.fraud_type_distribution with
      | some d => d
      | none => fr.fraud_types.getD []
    if fraud_types = [] then
      if 20 ≤ fr.case_count then -20
      else if 10 ≤ fr.case_count then -12
      else if 5 ≤ fr.case_count then -6
      else 0
    else
      let total : ℚ := fraud_types.foldl
        (fun acc tc =>
          acc + ((fraudBasePenalty tc.1 : ℚ) / 5) * (tc.2 : ℚ)) 0
      max (-25) (pyInt total)

/-- One historical success case. The source reads
`case.get("country", case.get("regn", ""))` and
`case.get("date", case.get("othbcDt", ""))`; the fields here hold those
resolved strings. -/
structure SuccessCase where
  country : String := ""
  hs_code : String := ""
  date : String := ""
deriving Repr, DecidableEq

/-- `MatchingService._calculate_success_bonus`: maximum (not sum) over at
most 5 cases of `10 * country_match * hs_similarity * recency`, capped at
`SUCCESS_CASE_MAX_BONUS = 10`. `current_year` stands for
`datetime.now().year`. -/
def calculate_success_bonus (hs_code country_code : String)
    (success_cases : List SuccessCase) (current_year : ℤ) : ℚ :=
  if success_cases = [] then 0
  else
    let hs4 := if hs_code ≠ "" then hs_code.take 4 else ""
    let max_bonus := (success_cases.take 5).foldl
      (fun max_bonus c => max max_bonus (caseBonus hs4 country_code current_year c))
      0
    min 10 max_bonus
where
  /-- Bonus contributed by one case (0 when the country does not match,
  matching the `continue` in the source loop, which leaves `max_bonus`
  unchanged exactly as `max max_bonus 0` does once `max_bonus ≥ 0`). -/
  caseBonus (hs4 country_code : String) (current_year : ℤ)
      (c : SuccessCase) : ℚ :=
    let country_match : ℚ :=
      if strContains (pyUpper c.country) (pyUpper country_code) then 1 else 0
    if country_match = 0 then 0
    else
      let hs_similarity : ℚ :=
        if hs4 ≠ "" ∧ strContains c.hs_code hs4 then 1
        else if 2 ≤ hs4.length ∧ strContains c.hs_code (hs4.take 2) then 8/10
        else 6/10
      let recency : ℚ :=
        if c.date = "" then 6/10
        else
          match (c.date.take 4).toInt? with
          | none => 6/10
          | some case_year =>
            let age := current_year - case_year
            if age ≤ 5 then 1
            else if age ≤ 10 then 6/10
            else 3/10
      10 * country_match * hs_similarity * recency

/-- `MatchingService._check_hs_match`: 4-digit HS prefix comparison. -/
def check_hs_match (hs1 hs2 : String) : Bool :=
  if hs1 = "" ∨ hs2 = "" then false
  else hs1.take 4 == hs2.take 4

/-- `MatchingService._check_price_compatibility`: overlapping ranges. -/
def check_price_compatibility (range1 range2 : List ℚ) : Bool :=
  match range1, range2 with
  | a1 :: b1 :: _, a2 :: b2 :: _ => decide (a2 ≤ b1) && decide (a1 ≤ b2)
  | _, _ => false

/-- The numeric components of the fit-score breakdown dict. -/
structure FitBreakdown where
  base : ℚ := 50
  hs_code_match : ℚ := 0
  price_compatible : ℚ := 0
  moq_compatible : ℚ := 0
  certification_match : ℚ := 0
  fraud_risk_penalty : ℤ := 0
  success_case_bonus : ℚ := 0
  compliance_penalty : Option ℤ := none
deriving Repr

/-- `MatchingService._calculate_fit_score`: base 50, additive bonuses and
penalties, clamped to [0, 100]. Returns `(total, breakdown)`. -/
def calculate_fit_score (profile candidate : MatchProfile) (moq_score : ℚ)
    (cert_result : CertResult) (fraud_risk : Option FraudRisk)
    (success_cases : List SuccessCase) (current_year : ℤ) :
    ℚ × FitBreakdown :=
  let hs_match := check_hs_match profile.hs_code candidate.hs_code
  let hs_bonus : ℚ := if hs_match then 20 else 0
  let price_match :=
    check_price_compatibility profile.price_range candidate.price_range
  let price_bonus : ℚ := if price_match then 15 else 0
  let moq_bonus := pyRound (moq_score * 10) 2
  let cert_bonus :=
    min (cert_result.required_score * 15 +
         min ((cert_result.matched_preferred.length : ℚ) * 3) 6) 20
  let fraud_penalty := calculate_fraud_penalty fraud_risk
  let success_bonus :=
    calculate_success_bonus profile.hs_code candidate.country success_cases
      current_year
  let comp_penalty : ℤ :=
    match candidate.compliance_info with
    | some info => info.score_penalty
    | none => 0
  let total : ℚ := 50 + hs_bonus + price_bonus + moq_bonus + cert_bonus +
    (fraud_penalty : ℚ) + success_bonus +
    (if comp_penalty ≠ 0 then (comp_penalty : ℚ) else 0)
  (max 0 (min 100 total),
   { hs_code_match := hs_bonus
     price_compatible := price_bonus
     moq_compatible := moq_bonus
     certification_match := pyRound cert_bonus 2
     fraud_risk_penalty := fraud_penalty
     success_case_bonus := pyRound success_bonus 2
     compliance_penalty := if comp_penalty ≠ 0 then some comp_penalty else none })

/-- The breakdown attached to a `MatchResult`: either the
`{"failed": True, "reason": r}` dict of a hard-gate failure or a scored
breakdown. -/
inductive BreakdownKind where
  | failedGate (reason : String)
  | scored (b : FitBreakdown)
deriving Repr

/-- The fields of `MatchResult` the gate claims are about. -/
structure MatchResult where
  partner_id : String
  country : String
  fit_score : ℚ
  moq_gate_passed : Bool
  moq_score : ℚ
  order_value_usd : Option ℚ := none
  breakdown : BreakdownKind
deriving Repr

/-- `MatchingService._create_failed_match`: a zero-score result carrying
the failure reason, for candidates that fail a hard gate. -/
def create_failed_match (candidate : MatchProfile) (reason : String) :
    MatchResult :=
  { partner_id := candidate.id
    country := candidate.country
    fit_score := 0
    moq_gate_passed := false
    moq_score := 0
    order_value_usd := none
    breakdown := .failedGate reason }

/-- Per-candidate body of the `find_matches` scoring loop: MOQ hard gate,
then required-certification gate, then fit-score computation. Every
candidate yields exactly one `MatchResult`. -/
def processCandidate (profile : MatchProfile) (profile_type : ProfileType)
    (fraud_risk : Option FraudRisk) (success_cases : List SuccessCase)
    (current_year : ℤ) (candidate : MatchProfile) : MatchResult :=
  let (moq_gate, moq_score, order_value, moq_reason) :=
    evaluate_moq profile candidate profile_type
  if !moq_gate then create_failed_match candidate moq_reason
  else
    let cert_result := evaluate_certifications profile candidate
    if !cert_result.required_passed then
      create_failed_match candidate
        ("필수 인증 미충족: " ++ String.intercalate ", " cert_result.missing_required)
    else
      let (fit_score, score_breakdown) :=
        calculate_fit_score profile candidate moq_score cert_result
          fraud_risk success_cases current_year
      { partner_id := candidate.id
        country := candidate.country
        fit_score := pyRound fit_score 2
        moq_gate_passed := moq_gate
        moq_score := pyRound moq_score 3
        order_value_usd :=
          if order_value ≠ 0 then some (pyRound order_value 2) else none
        breakdown := .scored score_breakdown }

/-- The scoring loop of `find_matches` over the compliance-filtered
candidate list (fraud/success lookups per candidate country are passed
as functions of the candidate, as the dicts `fraud_results` /
`success_results` are in the source). -/
def processCandidates (profile : MatchProfile) (profile_type : ProfileType)
    (fraud_results : MatchProfile → Option FraudRisk)
    (success_results : MatchProfile → List SuccessCase)
    (current_year : ℤ) (candidates : List MatchProfile) : List MatchResult :=
  candidates.map (fun c =>
    processCandidate profile profile_type (fraud_results c)
      (success_results c) current_year c)

/-! ## Recommendation cache (`backend/utils/cache.py`)

Wall-clock instants are integers counted in days (the TTL unit of the
source); `datetime.utcnow()` becomes an explicit `now` argument.
`_make_key` hashes `hs_prefix + ":" + exporter` with a deterministic
digest; the digest is modelled as the identity on that key string (a
digest is a function, so equal key strings map to equal keys, which is
all the claims use). Cached payload rows and the explanation summary are
opaque to the cache and modelled as strings. -/

/-- The data `RecommendationCache.set` stores under a key. -/
structure CacheEntry where
  hs_code : String
  exporter_country : String
  recommendations : List String
  explanation : String
  cached_at : ℤ
  expires_at : ℤ
deriving Repr, DecidableEq

/-- A key-to-entry store (memory dict or cache directory). -/
def CacheStore : Type := String → Option CacheEntry

/-- Store update (dict assignment / file write). -/
def CacheStore.insert (st : CacheStore) (key : String) (entry : CacheEntry) :
    CacheStore :=
  fun k => if k = key then some entry else st k

/-- Store deletion (`del` / `Path.unlink`). -/
def CacheStore.erase (st : CacheStore) (key : String) : CacheStore :=
  fun k => if k = key then none else st k

/-- The two cache tiers plus the configured TTL. -/
structure CacheState where
  memory : CacheStore
  files : CacheStore
  ttl_days : ℤ := 14

/-- First half of `RecommendationCache._make_key`: 4-character HS prefix,
`"0000"` for an empty HS code. -/
def hsKeyPre (hs_code : String) : String :=
  if hs_code ≠ "" then hs_code.take 4 else "0000"

/-- `RecommendationCache._make_key`: the normalized key string (see the
section comment on the digest). -/
def make_key (hs_code exporter_country : String) : String :=
  hsKeyPre hs_code ++ ":" ++ exporter_country

/-- `RecommendationCache._is_valid`: wall-clock comparison, strict. -/
def cache_is_valid (now : ℤ) (cached : CacheEntry) : Bool :=
  decide (now < cached.expires_at)

/-- `RecommendationCache.get`: memory tier first, then the file tier, with
lazy deletion of whichever expired copies the lookup touches; a file hit
is promoted into memory. Returns the payload (or `none`) and the
post-access state. -/
def cache_get (st : CacheState) (now : ℤ) (hs_code exporter_country : String) :
    Option CacheEntry × CacheState :=
  let key := make_key hs_code exporter_country
  let afterMemory : Option (Option CacheEntry × CacheState) :=
    match st.memory key with
    | some cached =>
      if cache_is_valid now cached then some (some cached, st)
      else none
    | none => none
  match afterMemory with
  | some hit => hit
  | none =>
    let st1 : CacheState :=
      match st.memory key with
      | some _ => { st with memory := st.memory.erase key }
      | none => st
    match st1.files key with
    | some cached =>
      if cache_is_valid now cached then
        (some cached, { st1 with memory := st1.memory.insert key cached })
      else (none, { st1 with files := st1.files.erase key })
    | none => (none, st1)

/-- `RecommendationCache.set`: build the entry (payload truncated to 20
rows, expiry `now + ttl_days`) and write it to both tiers. -/
def cache_set (st : CacheState) (now : ℤ) (hs_code exporter_country : String)
    (recommendations : List String) (explanation : String) : CacheState :=
  let key := make_key hs_code exporter_country
  let entry : CacheEntry :=
    { hs_code := hs_code
      exporter_country := exporter_country
      recommendations := recommendations.take 20
      explanation := explanation
      cached_at := now
      expires_at := now + st.ttl_days }
  { st with
    memory := st.memory.insert key entry
    files := st.files.insert key entry }

/-! ## Confidence calculator (`backend/utils/confidence.py`) -/

/-- `ConfidenceCalculator.REQUIRED_FIELDS` per context (`dict.get`
default: `[]`). -/
def REQUIRED_FIELDS (context : String) : List String :=
  match context with
  | "recommendation" =>
    ["success_score", "country_code", "country_name",
     "gdp", "growth_rate", "risk_grade"]
  | "simulation" =>
    ["market_size", "success_probability", "gdp", "growth_rate", "news_risk"]
  | "matching" =>
    ["fit_score", "hs_code", "country", "price_range", "moq"]
  | _ => []

/-- `ConfidenceCalculator.DATA_SOURCES`. -/
def DATA_SOURCES : List String :=
  ["KOTRA 수출유망추천정보", "KOTRA 국가정보", "KOTRA 상품DB",
   "KOTRA 해외시장뉴스", "KOTRA 무역사기사례", "KOTRA 기업성공사례"]

/-- `ConfidenceCalculator.calculate`: weighted combination of data
completeness (0.5), source diversity (0.3) and a fallback/provider-health
term (0.2), clamped to [0.1, 1.0]. Only the confidence scalar is
returned; the breakdown dict of the source is reporting-only. -/
def confidence_calculate (context : String) (missing_fields : List String)
    (data_sources_used : List String) (fallback_used : Bool)
    (kotra_status : String) : ℚ :=
  let required := REQUIRED_FIELDS context
  let completeness : ℚ :=
    if required ≠ [] then
      let missing_count :=
        (missing_fields.filter (fun f => f ∈ required)).length
      1 - (missing_count : ℚ) / (required.length : ℚ)
    else 1
  let diversity : ℚ :=
    if data_sources_used ≠ [] then
      let source_count :=
        (data_sources_used.filter (fun s => s ∈ DATA_SOURCES)).length
      min 1 ((source_count : ℚ) / 4)
    else 1/5
  let fallback_score : ℚ := 1
  let fallback_score := if fallback_used then (1 : ℚ)/2 else fallback_score
  let fallback_score :=
    if kotra_status = "unavailable" then fallback_score * (7/10)
    else fallback_score
  let weighted_sum :=
    completeness * (50/100) + diversity * (30/100) + fallback_score * (20/100)
  max (1/10) (min 1 weighted_sum)

/-- `ConfidenceCalculator._interpret_confidence` interpretation bands. -/
def interpret_confidence (confidence : ℚ) : String :=
  if 9/10 ≤ confidence then "매우 높음 - 신뢰할 수 있는 결과"
  else if 7/10 ≤ confidence then "높음 - 참고 가능한 결과"
  else if 1/2 ≤ confidence then "보통 - 일부 데이터 부족"
  else if 3/10 ≤ confidence then "낮음 - 추가 검토 필요"
  else "매우 낮음 - 주의 필요, 근거 빈약"

/-! ## Specification-side definitions

These follow the wording of the specification (not the source) and exist
only to be compared against the embedded code. -/

/-- Spec wording: contribution of one indicator to the composite —
`weight * norm` when the normalized value is non-null, else nothing
(no weight redistribution). -/
def specContribution (weight : ℚ) (norm : Option ℚ) : ℚ :=
  match norm with
  | some v => weight * v
  | none => 0

/-- Spec wording: `Σ weight_i * norm_i` over the five weighted indicators,
summed only over non-null normalized values. -/
def specEconomicSum (n : NormalizedDS02) : ℚ :=
  specContribution (WEIGHTS "gdp_usd") n.norm_gdp +
  specContribution (WEIGHTS "import_value_usd") n.norm_import_value +
  specContribution (WEIGHTS "gdp_growth_pct") n.norm_gdp_growth +
  specContribution (WEIGHTS "import_growth_pct") n.norm_import_growth +
  specContribution (WEIGHTS "inflation_pct") n.norm_inflation

/-- Spec wording of the MOQ soft score: a function of the relative
deviation between the two sides' quantities, neutral 0.5 when either
quantity is non-positive. -/
def moqSoftSpec (profile_moq candidate_moq : ℚ) : ℚ :=
  if 0 < profile_moq ∧ 0 < candidate_moq then
    let deviation := |profile_moq - candidate_moq| / max profile_moq candidate_moq
    if deviation ≤ 1/5 then 1
    else if deviation ≤ 1/2 then 7/10
    else if deviation ≤ 1 then 2/5
    else 1/5
  else 1/2

/-- Spec wording of one success case's bonus candidate:
`10 * countryMatch(0|1) * hsSimilarity(0.6|0.8|1.0) * recency(1.0|0.6|0.3)`,
computed unconditionally (no skipping). -/
def specCaseBonus (hs4 country_code : String) (current_year : ℤ)
    (c : SuccessCase) : ℚ :=
  let country_match : ℚ :=
    if strContains (pyUpper c.country) (pyUpper country_code) then 1 else 0
  let hs_similarity : ℚ :=
    if hs4 ≠ "" ∧ strContains c.hs_code hs4 then 1
    else if 2 ≤ hs4.length ∧ strContains c.hs_code (hs4.take 2) then 8/10
    else 6/10
  let recency : ℚ :=
    if c.date = "" then 6/10
    else
      match (c.date.take 4).toInt? with
      | none => 6/10
      | some case_year =>
        let age := current_year - case_year
        if age ≤ 5 then 1
        else if age ≤ 10 then 6/10
        else 3/10
  10 * country_match * hs_similarity * recency

/-- An option is bounded in [0,1] when every value it holds is. -/
def OptBounded (o : Option ℚ) : Prop :=
  ∀ v, o = some v → 0 ≤ v ∧ v ≤ 1

/-! ## Helper lemmas -/

theorem append_ne_empty (s t : String) (h : s ≠ "") : s ++ t ≠ "" := by
  intro hEq
  apply h
  rw [String.ext_iff] at hEq ⊢
  rw [String.data_append] at hEq
  have : s.data ++ t.data = [] := hEq
  exact (List.append_eq_nil.mp this).1

theorem clamp01_mem (x : ℚ) : 0 ≤ clamp01 x ∧ clamp01 x ≤ 1 := by
  unfold clamp01
  refine ⟨le_max_left _ _, max_le (by norm_num) (min_le_left _ _)⟩

theorem norm_log_bounded (log : ℚ → ℚ) (stats : ℚ × ℚ) (value : Option ℚ) :
    OptBounded (norm_log log stats value) := by
  intro v hv
  cases value with
  | none => simp [norm_log] at hv
  | some w =>
    by_cases h1 : w ≤ 0
    · simp [norm_log, h1] at hv
    · by_cases h2 : stats.2 - stats.1 = 0
      · simp [norm_log, h1, h2] at hv
        constructor <;> rw [← hv] <;> norm_num
      · simp [norm_log, h1, h2] at hv
        rw [← hv]
        exact clamp01_mem _

theorem clip_ranges_sound (f : String) (lo hi : ℚ)
    (h : CLIP_RANGES f = some (lo, hi)) : lo < hi := by
  unfold CLIP_RANGES at h
  split at h <;> simp_all <;> norm_num [← h.1, ← h.2]

theorem clip_frac_mem (lo hi v : ℚ) (h : lo < hi) :
    0 ≤ (max lo (min hi v) - lo) / (hi - lo) ∧
    (max lo (min hi v) - lo) / (hi - lo) ≤ 1 := by
  have hden : 0 < hi - lo := by linarith
  constructor
  · apply div_nonneg _ hden.le
    have : lo ≤ max lo (min hi v) := le_max_left _ _
    linarith
  · rw [div_le_one hden]
    have : max lo (min hi v) ≤ hi := max_le h.le (min_le_left _ _)
    linarith

theorem norm_clip_bounded (value : Option ℚ) (f : String) :
    OptBounded (norm_clip value f) := by
  intro v hv
  unfold norm_clip at hv
  cases value with
  | none => exact absurd hv (by simp)
  | some w =>
    cases hcr : CLIP_RANGES f with
    | none => rw [hcr] at hv; exact absurd hv (by simp)
    | some p =>
      obtain ⟨lo, hi⟩ := p
      have hlt := clip_ranges_sound f lo hi hcr
      rw [hcr] at hv
      simp only at hv
      split_ifs at hv with hd
      · injection hv with hv; simp [← hv]
      · injection hv with hv
        rw [← hv]
        exact clip_frac_mem lo hi w hlt

theorem specContribution_bounds_pos (w : ℚ) (o : Option ℚ) (hw : 0 ≤ w)
    (hb : OptBounded o) : 0 ≤ specContribution w o ∧ specContribution w o ≤ w := by
  cases o with
  | none => simpa [specContribution] using hw
  | some v =>
    obtain ⟨h0, h1⟩ := hb v rfl
    simp only [specContribution]
    exact ⟨mul_nonneg hw h0, by nlinarith⟩

theorem specContribution_bounds_neg (w : ℚ) (o : Option ℚ) (hw : w ≤ 0)
    (hb : OptBounded o) : w ≤ specContribution w o ∧ specContribution w o ≤ 0 := by
  cases o with
  | none => simpa [specContribution] using hw
  | some v =>
    obtain ⟨h0, h1⟩ := hb v rfl
    simp only [specContribution]
    exact ⟨by nlinarith, by nlinarith⟩

theorem compute_economic_score_eq_spec (n : NormalizedDS02) :
    compute_economic_score n = max 0 (specEconomicSum n) := by
  unfold compute_economic_score specEconomicSum
  cases n.norm_gdp <;> cases n.norm_import_value <;> cases n.norm_gdp_growth <;>
    cases n.norm_import_growth <;> cases n.norm_inflation <;>
    simp only [specContribution] <;> ring_nf

theorem compute_economic_score_bounds (n : NormalizedDS02)
    (h1 : OptBounded n.norm_gdp) (h2 : OptBounded n.norm_import_value)
    (h3 : OptBounded n.norm_gdp_growth) (h4 : OptBounded n.norm_import_growth)
    (h5 : OptBounded n.norm_inflation) :
    0 ≤ compute_economic_score n ∧ compute_economic_score n ≤ 1 := by
  rw [compute_economic_score_eq_spec]
  refine ⟨le_max_left _ _, max_le (by norm_num) ?_⟩
  have w1 : WEIGHTS "gdp_usd" = 30/100 := rfl
  have w2 : WEIGHTS "import_value_usd" = 25/100 := rfl
  have w3 : WEIGHTS "gdp_growth_pct" = 20/100 := rfl
  have w4 : WEIGHTS "import_growth_pct" = 15/100 := rfl
  have w5 : WEIGHTS "inflation_pct" = -10/100 := rfl
  have b1 := specContribution_bounds_pos (WEIGHTS "gdp_usd") n.norm_gdp
    (by rw [w1]; norm_num) h1
  have b2 := specContribution_bounds_pos (WEIGHTS "import_value_usd")
    n.norm_import_value (by rw [w2]; norm_num) h2
  have b3 := specContribution_bounds_pos (WEIGHTS "gdp_growth_pct")
    n.norm_gdp_growth (by rw [w3]; norm_num) h3
  have b4 := specContribution_bounds_pos (WEIGHTS "import_growth_pct")
    n.norm_import_growth (by rw [w4]; norm_num) h4
  have b5 := specContribution_bounds_neg (WEIGHTS "inflation_pct")
    n.norm_inflation (by rw [w5]; norm_num) h5
  unfold specEconomicSum
  rw [w1] at b1; rw [w2] at b2; rw [w3] at b3; rw [w4] at b4
  obtain ⟨b1a, b1b⟩ := b1; obtain ⟨b2a, b2b⟩ := b2
  obtain ⟨b3a, b3b⟩ := b3; obtain ⟨b4a, b4b⟩ := b4
  obtain ⟨b5a, b5b⟩ := b5
  rw [w1, w2, w3, w4]
  linarith

theorem excludeReasonFor_ne_empty (rec : DS02Record) :
    excludeReasonFor rec ≠ "" := by
  unfold excludeReasonFor
  cases rec.get_value "gdp_usd" with
  | none =>
    show ("GDP missing" : String) ≠ ""
    decide
  | some gdp =>
    simp only
    split_ifs
    · exact append_ne_empty _ _ (append_ne_empty _ _ (by decide))
    · cases rec.get_value "import_value_usd" with
      | none =>
        show ("Import value missing" : String) ≠ ""
        decide
      | some imp =>
        simp only
        split_ifs
        · exact append_ne_empty _ _ (append_ne_empty _ _ (by decide))
        · show ("Required indicators missing" : String) ≠ ""
          decide

/-! ## Claim theorems -/

/-- C1: for every scored (non-excluded) record, the economic composite
score equals `max(0, Σ weight_i * norm_i)` taken only over the indicators
whose normalized value is non-null, with the fixed weights and no weight
redistribution, and the composite score lies in [0, 1]. -/
theorem economic_score_weighted_sum_bounded
    (log : ℚ → ℚ) (stats : String → ℚ × ℚ) (rec : DS02Record)
    (h : rec.is_valid_for_scoring = true) :
    (scoreRecord log stats rec).economic_score =
      max 0 (specEconomicSum (scoreRecord log stats rec)) ∧
    0 ≤ (scoreRecord log stats rec).economic_score ∧
    (scoreRecord log stats rec).economic_score ≤ 1 := by
  unfold scoreRecord
  rw [h]
  simp only [Bool.not_true, Bool.false_eq_true, if_false]
  refine ⟨?_, ?_⟩
  · exact compute_economic_score_eq_spec _
  · exact compute_economic_score_bounds _
      (norm_log_bounded _ _ _) (norm_log_bounded _ _ _)
      (norm_clip_bounded _ _) (norm_clip_bounded _ _) (norm_clip_bounded _ _)

/-- Witness for C1 at a concrete valid record. -/
theorem economic_score_weighted_sum_bounded_witness :
    DS02Record.is_valid_for_scoring
      { country_iso3 := "KOR", gdp_usd := some (2, 2023),
        import_value_usd := some (1, 2023) } = true ∧
    0 ≤ (scoreRecord (fun q => q) (fun _ => (0, 1))
      { country_iso3 := "KOR", gdp_usd := some (2, 2023),
        import_value_usd := some (1, 2023) }).economic_score ∧
    (scoreRecord (fun q => q) (fun _ => (0, 1))
      { country_iso3 := "KOR", gdp_usd := some (2, 2023),
        import_value_usd := some (1, 2023) }).economic_score ≤ 1 :=
  ⟨by decide,
   (economic_score_weighted_sum_bounded (fun q => q) (fun _ => (0, 1))
      { country_iso3 := "KOR", gdp_usd := some (2, 2023),
        import_value_usd := some (1, 2023) } (by decide)).2⟩

/-- C2: a record whose required indicator fails its validity predicate
(GDP absent or `≤ 0`, import value absent or `< 0`) is excluded entirely:
marked excluded with a non-empty reason, no normalized values and no
composite score computed (the score field keeps its dataclass default 0),
while the record still appears in the `score_all` output. -/
theorem required_indicator_failure_excludes
    (log : ℚ → ℚ) (stats : String → ℚ × ℚ) (rec : DS02Record)
    (h : rec.is_valid_for_scoring = false) :
    (scoreRecord log stats rec).excluded = true ∧
    (scoreRecord log stats rec).exclude_reason ≠ "" ∧
    (scoreRecord log stats rec).norm_gdp = none ∧
    (scoreRecord log stats rec).norm_import_value = none ∧
    (scoreRecord log stats rec).norm_gdp_growth = none ∧
    (scoreRecord log stats rec).norm_import_growth = none ∧
    (scoreRecord log stats rec).norm_inflation = none ∧
    (scoreRecord log stats rec).norm_population = none ∧
    (scoreRecord log stats rec).economic_score = 0 ∧
    ∀ records : List DS02Record, rec ∈ records →
      scoreRecord log
        (logStatsFor log (records.filter (fun r => r.is_valid_for_scoring)))
        rec ∈ score_all log records := by
  refine ⟨?_, ?_, ?_, ?_, ?_, ?_, ?_, ?_, ?_, ?_⟩
  · simp [scoreRecord, h]
  · simp only [scoreRecord, h, Bool.not_false, if_true]
    exact excludeReasonFor_ne_empty rec
  · simp [scoreRecord, h]
  · simp [scoreRecord, h]
  · simp [scoreRecord, h]
  · simp [scoreRecord, h]
  · simp [scoreRecord, h]
  · simp [scoreRecord, h]
  · simp [scoreRecord, h]
  · intro records hmem
    exact List.mem_map_of_mem _ hmem

/-- Witness for C2 at a record with GDP missing. -/
theorem required_indicator_failure_excludes_witness :
    DS02Record.is_valid_for_scoring
      { country_iso3 := "XXX", import_value_usd := some (1, 2023) } = false ∧
    (scoreRecord (fun q => q) (fun _ => (0, 1))
      { country_iso3 := "XXX",
        import_value_usd := some (1, 2023) }).excluded = true ∧
    (scoreRecord (fun q => q) (fun _ => (0, 1))
      { country_iso3 := "XXX",
        import_value_usd := some (1, 2023) }).economic_score = 0 :=
  have h := required_indicator_failure_excludes (fun q => q) (fun _ => (0, 1))
    { country_iso3 := "XXX", import_value_usd := some (1, 2023) } (by decide)
  ⟨by decide, h.1, h.2.2.2.2.2.2.2.2.1⟩

theorem region_tag_ne_original (r : String) : "region_avg:" ++ r ≠ "original" := by
  intro h
  have hd : ("region_avg:" ++ r).data = ("original" : String).data :=
    congrArg String.data h
  rw [String.data_append] at hd
  have hlen := congrArg List.length hd
  rw [List.length_append] at hlen
  have h1 : ("region_avg:" : String).data.length = 11 := rfl
  have h2 : ("original" : String).data.length = 8 := rfl
  omega

theorem imputeNumericMissing_tag (log : List MissingFieldInfo)
    (value : Option ℚ) (field_name : String) (country_code : Option String)
    (fallback : ℚ) :
    (impute_numeric.imputeNumericMissing log value field_name country_code
       fallback).1.2 = "fallback" ∨
    ∃ r, (impute_numeric.imputeNumericMissing log value field_name country_code
       fallback).1.2 = "region_avg:" ++ r := by
  unfold impute_numeric.imputeNumericMissing
  split_ifs with h
  · cases hd : REGION_DEFAULTS (get_region (country_code.getD "")) field_name with
    | none => simp [hd]
    | some d =>
      right
      exact ⟨get_region (country_code.getD ""), by simp [hd]⟩
  · simp

/-- C3 counterexample: a present zero in a growth/rate field is not
returned as-is with tag `original`; the region default is imputed
instead (`impute_numeric(0, "growth_rate", "KR", 2)` yields the Asia
region average 4 with tag `region_avg:asia`). -/
theorem impute_zero_growth_not_original :
    (impute_numeric [] (some 0) "growth_rate" (some "KR") 2).1 =
      (PyVal.num 4, "region_avg:asia") ∧
    (impute_numeric [] (some 0) "growth_rate" (some "KR") 2).1 ≠
      (PyVal.num 0, "original") := by
  constructor <;> decide

/-- C3 (amended): `impute_numeric` follows the priority order (1) return
the original value with tag `original` whenever it is present and
non-zero — a present zero is treated as missing for every numeric field,
growth/rate fields included; (2) otherwise return the region-level
default for the field derived from the static country-to-region table;
(3) otherwise return the caller-supplied fallback. The tag is never
`original` unless the original value was present and non-zero. -/
theorem impute_numeric_priority_order
    (log : List MissingFieldInfo) (value : Option ℚ) (field_name : String)
    (country_code : Option String) (fallback : ℚ) :
    (∀ v, value = some v → v ≠ 0 →
       (impute_numeric log value field_name country_code fallback).1 =
         (.num v, "original")) ∧
    ((value = none ∨ value = some 0) → truthyS country_code = true →
       ∀ d, REGION_DEFAULTS (get_region (country_code.getD "")) field_name =
           some d →
         (impute_numeric log value field_name country_code fallback).1 =
           (d, "region_avg:" ++ get_region (country_code.getD ""))) ∧
    ((value = none ∨ value = some 0) →
       (truthyS country_code = false ∨
        REGION_DEFAULTS (get_region (country_code.getD "")) field_name = none) →
       (impute_numeric log value field_name country_code fallback).1 =
         (.num fallback, "fallback")) ∧
    ((impute_numeric log value field_name country_code fallback).1.2 =
        "original" →
       ∃ v, value = some v ∧ v ≠ 0) := by
  refine ⟨?_, ?_, ?_, ?_⟩
  · intro v hv hnz
    subst hv
    simp [impute_numeric, hnz]
  · intro hval htr d hd
    have : impute_numeric log value field_name country_code fallback =
        impute_numeric.imputeNumericMissing log value field_name
          country_code fallback := by
      rcases hval with h | h <;> subst h <;> simp [impute_numeric]
    rw [this]
    unfold impute_numeric.imputeNumericMissing
    simp [htr, hd]
  · intro hval hmiss
    have : impute_numeric log value field_name country_code fallback =
        impute_numeric.imputeNumericMissing log value field_name
          country_code fallback := by
      rcases hval with h | h <;> subst h <;> simp [impute_numeric]
    rw [this]
    unfold impute_numeric.imputeNumericMissing
    rcases hmiss with h | h
    · simp [h]
    · split_ifs with htr
      · simp [h]
      · simp
  · intro htag
    cases hv : value with
    | some v =>
      by_cases hnz : v = 0
      · subst hnz
        rw [hv] at htag
        simp only [impute_numeric, ne_eq, not_true_eq_false, if_false] at htag
        exfalso
        rcases imputeNumericMissing_tag log (some 0) field_name country_code
            fallback with h | ⟨r, h⟩
        · rw [htag] at h; exact absurd h (by decide)
        · rw [htag] at h
          exact region_tag_ne_original r h.symm
      · exact ⟨v, rfl, hnz⟩
    | none =>
      rw [hv] at htag
      simp only [impute_numeric] at htag
      exfalso
      rcases imputeNumericMissing_tag log none field_name country_code
          fallback with h | ⟨r, h⟩
      · rw [htag] at h; exact absurd h (by decide)
      · rw [htag] at h
        exact region_tag_ne_original r h.symm

/-- Witness for C3's amended theorem at concrete inputs exercising all
three priority tiers. -/
theorem impute_numeric_priority_order_witness :
    (impute_numeric [] (some 5) "gdp" (some "KR") 7).1 =
      (PyVal.num 5, "original") ∧
    (impute_numeric [] none "gdp" (some "FR") 3).1 =
      (PyVal.num 2000, "region_avg:europe") ∧
    (impute_numeric [] none "population" none 3).1 =
      (PyVal.num 3, "fallback") :=
  ⟨(impute_numeric_priority_order [] (some 5) "gdp" (some "KR") 7).1 5 rfl
     (by norm_num),
   ((impute_numeric_priority_order [] none "gdp" (some "FR") 3).2.1
      (Or.inl rfl) (by decide) (PyVal.num 2000) (by decide)).trans (by decide),
   (impute_numeric_priority_order [] none "population" none 3).2.2.1
     (Or.inl rfl) (Or.inl (by decide))⟩

theorem mem_foldl_filterCountriesStep (cfg : ComplianceConfig)
    (codes : List String) :
    ∀ (acc : List String × List ExclusionEntry) (c : String),
      c ∈ (codes.foldl (filterCountriesStep cfg) acc).1 →
      c ∈ acc.1 ∨ (c ∈ codes ∧ (complianceCheck cfg c).1 ≠ .blocked) := by
  induction codes with
  | nil =>
    intro acc c h
    exact Or.inl h
  | cons x xs ih =>
    intro acc c h
    rw [List.foldl_cons] at h
    rcases ih _ c h with hacc | hxs
    · unfold filterCountriesStep at hacc
      rcases hst : complianceCheck cfg x with ⟨status, checkInfo⟩
      rw [hst] at hacc
      cases status with
      | blocked => exact Or.inl hacc
      | restricted =>
        simp only [List.mem_append, List.mem_singleton] at hacc
        rcases hacc with h1 | h2
        · exact Or.inl h1
        · subst h2
          exact Or.inr ⟨List.mem_cons_self _ _, by rw [hst]; simp⟩
      | ok =>
        simp only [List.mem_append, List.mem_singleton] at hacc
        rcases hacc with h1 | h2
        · exact Or.inl h1
        · subst h2
          exact Or.inr ⟨List.mem_cons_self _ _, by rw [hst]; simp⟩
    · exact Or.inr ⟨List.mem_cons_of_mem _ hxs.1, hxs.2⟩

theorem mem_foldl_filterRecRowsStep (cfg : ComplianceConfig)
    (rows : List RecRow) :
    ∀ (acc : List RecRow × List ExclusionEntry) (r : RecRow),
      r ∈ (rows.foldl (filterRecRowsStep cfg) acc).1 →
      r ∈ acc.1 ∨
        ((complianceCheck cfg r.country_code).1 ≠ .blocked ∧
         ((complianceCheck cfg r.country_code).1 = .restricted →
            r.compliance_penalty =
              some (complianceCheck cfg r.country_code).2.score_penalty)) := by
  induction rows with
  | nil =>
    intro acc r h
    exact Or.inl h
  | cons x xs ih =>
    intro acc r h
    rw [List.foldl_cons] at h
    rcases ih _ r h with hacc | hxs
    · unfold filterRecRowsStep at hacc
      rcases hst : complianceCheck cfg x.country_code with ⟨status, checkInfo⟩
      rw [hst] at hacc
      cases status with
      | blocked => exact Or.inl hacc
      | restricted =>
        simp only [List.mem_append, List.mem_singleton] at hacc
        rcases hacc with h1 | h2
        · exact Or.inl h1
        · subst h2
          refine Or.inr ⟨?_, ?_⟩
          · show (complianceCheck cfg x.country_code).1 ≠ .blocked
            rw [hst]; simp
          · intro _
            show ({ x with
                compliance_penalty := some checkInfo.score_penalty,
                compliance_warning := checkInfo.warning } :
                RecRow).compliance_penalty =
              some (complianceCheck cfg x.country_code).2.score_penalty
            rw [hst]
      | ok =>
        simp only [List.mem_append, List.mem_singleton] at hacc
        rcases hacc with h1 | h2
        · exact Or.inl h1
        · subst h2
          refine Or.inr ⟨by rw [hst]; simp, ?_⟩
          intro hr
          rw [hst] at hr
          exact absurd hr (by simp)
    · exact Or.inr hxs

theorem default_restricted_penalty (c : String)
    (h : (complianceCheck defaultComplianceConfig c).1 = .restricted) :
    (complianceCheck defaultComplianceConfig c).2.score_penalty = -20 := by
  unfold complianceCheck at h ⊢
  by_cases h1 : pyUpper c ∈ defaultComplianceConfig.hard_block.countries
  · simp [h1] at h
  · by_cases h2 : pyUpper c ∈ defaultComplianceConfig.restricted.countries
    · simp only [h1, h2]
      simp [defaultComplianceConfig]
    · by_cases h3 :
          pyUpper c ∈ defaultComplianceConfig.high_risk_warning.countries
      · simp [h1, h2, h3] at h
      · simp [h1, h2, h3] at h

/-- C4: blocked countries never survive compliance filtering (neither in
`filter_countries` nor in the recommendation pipeline's filter step);
under the built-in default configuration every restricted country that
does appear carries a strictly negative penalty (the restricted rows of
the recommendation pipeline carry it in `compliance_penalty`); and a
country code outside all configured lists yields status `ok` with
penalty 0 (the check is total — it never raises). -/
theorem compliance_blocked_excluded_restricted_penalized
    (cfg : ComplianceConfig) (codes : List String) (rows : List RecRow) :
    (∀ c ∈ (filter_countries cfg codes).1,
       (complianceCheck cfg c).1 ≠ .blocked) ∧
    (∀ c ∈ (filter_countries defaultComplianceConfig codes).1,
       (complianceCheck defaultComplianceConfig c).1 = .restricted →
         (complianceCheck defaultComplianceConfig c).2.score_penalty < 0) ∧
    (∀ r ∈ (filterRecRows cfg rows).1,
       (complianceCheck cfg r.country_code).1 ≠ .blocked) ∧
    (∀ r ∈ (filterRecRows defaultComplianceConfig rows).1,
       (complianceCheck defaultComplianceConfig r.country_code).1 =
           .restricted →
         ∃ p, r.compliance_penalty = some p ∧ p < 0) ∧
    (∀ code : String,
       pyUpper code ∉ defaultComplianceConfig.hard_block.countries →
       pyUpper code ∉ defaultComplianceConfig.restricted.countries →
       pyUpper code ∉ defaultComplianceConfig.high_risk_warning.countries →
       (complianceCheck defaultComplianceConfig code).1 = .ok ∧
       (complianceCheck defaultComplianceConfig code).2.score_penalty = 0) := by
  refine ⟨?_, ?_, ?_, ?_, ?_⟩
  · intro c hc
    rcases mem_foldl_filterCountriesStep cfg codes ([], []) c hc with h | h
    · exact absurd h (by simp)
    · exact h.2
  · intro c hc hres
    have := default_restricted_penalty c hres
    omega
  · intro r hr
    rcases mem_foldl_filterRecRowsStep cfg rows ([], []) r hr with h | h
    · exact absurd h (by simp)
    · exact h.1
  · intro r hr hres
    rcases mem_foldl_filterRecRowsStep defaultComplianceConfig rows
        ([], []) r hr with h | h
    · exact absurd h (by simp)
    · refine ⟨(complianceCheck defaultComplianceConfig
          r.country_code).2.score_penalty, h.2 hres, ?_⟩
      have := default_restricted_penalty r.country_code hres
      omega
  · intro code h1 h2 h3
    unfold complianceCheck
    simp [h1, h2, h3]

/-- Witness for C4 on a concrete candidate list containing a blocked, a
restricted and an unknown code. -/
theorem compliance_blocked_excluded_restricted_penalized_witness :
    ((complianceCheck defaultComplianceConfig "US").1 ≠ .blocked) ∧
    ((complianceCheck defaultComplianceConfig "RU").2.score_penalty < 0) ∧
    (∃ p, ({ country_code := "RU", compliance_penalty := some (-20),
             compliance_warning :=
               some "경고: RU는 수출 제한 대상국로 인해 수출이 제한됩니다." } :
             RecRow).compliance_penalty = some p ∧ p < 0) ∧
    ((complianceCheck defaultComplianceConfig "ZZ").1 = .ok ∧
     (complianceCheck defaultComplianceConfig "ZZ").2.score_penalty = 0) :=
  have h := compliance_blocked_excluded_restricted_penalized
    defaultComplianceConfig ["US", "KP", "RU"] [{ country_code := "RU" }]
  ⟨h.1 "US" (by decide),
   h.2.1 "RU" (by decide) (by decide),
   h.2.2.2.1 { country_code := "RU", compliance_penalty := some (-20),
               compliance_warning :=
                 some "경고: RU는 수출 제한 대상국로 인해 수출이 제한됩니다." }
     (by decide) (by decide),
   h.2.2.2.2 "ZZ" (by decide) (by decide) (by decide)⟩

theorem moqCapacityFail_reason_ne_empty (profile candidate : MatchProfile)
    (pt : ProfileType) (r : String)
    (h : moqCapacityFail profile candidate pt = some r) : r ≠ "" := by
  unfold moqCapacityFail at h
  cases pt with
  | seller =>
    cases hcap : pyOrQ profile.annual_capacity candidate.annual_capacity with
    | some cap =>
      rw [hcap] at h
      simp only at h
      split_ifs at h
      injection h with h
      rw [← h]
      repeat apply append_ne_empty
      decide
    | none =>
      rw [hcap] at h
      exact absurd h (by simp)
  | buyer =>
    simp only at h
    split_ifs at h
    injection h with h
    rw [← h]
    repeat apply append_ne_empty
    decide

theorem moqMovFail_reason_ne_empty (profile candidate : MatchProfile)
    (r : String) (h : moqMovFail profile candidate = some r) : r ≠ "" := by
  unfold moqMovFail at h
  cases hmov : pyOrQ profile.min_order_usd candidate.min_order_usd with
  | some mov =>
    rw [hmov] at h
    simp only at h
    split_ifs at h
    injection h with h
    rw [← h]
    repeat apply append_ne_empty
    decide
  | none =>
    rw [hmov] at h
    exact absurd h (by simp)

theorem evaluate_moq_fail_reason (profile candidate : MatchProfile)
    (pt : ProfileType) (h : (evaluate_moq profile candidate pt).1 = false) :
    (evaluate_moq profile candidate pt).2.2.2 ≠ "" := by
  unfold evaluate_moq at h ⊢
  cases hcap : moqCapacityFail profile candidate pt with
  | some r =>
    exact moqCapacityFail_reason_ne_empty profile candidate pt r hcap
  | none =>
    rw [hcap] at h
    cases hmov : moqMovFail profile candidate with
    | some r =>
      exact moqMovFail_reason_ne_empty profile candidate r hmov
    | none =>
      rw [hmov] at h
      exact Bool.noConfusion h

theorem cert_fail_reason_ne_empty (missing : List String) :
    ("필수 인증 미충족: " ++ String.intercalate ", " missing) ≠ "" := by
  apply append_ne_empty
  decide

/-- C5: any hard-gate failure in partner matching — MOQ capacity gate,
minimum-order-value gate, or an unmet required certification — forces
the candidate's fit score to exactly 0, and the candidate is still
returned in the match list with a non-empty failure reason; the scoring
loop emits exactly one result per candidate, so no candidate is ever
silently dropped. -/
theorem hard_gate_failure_zero_score_with_reason
    (profile : MatchProfile) (pt : ProfileType)
    (fraud_results : MatchProfile → Option FraudRisk)
    (success_results : MatchProfile → List SuccessCase)
    (current_year : ℤ) (candidates : List MatchProfile) :
    (processCandidates profile pt fraud_results success_results current_year
        candidates).length = candidates.length ∧
    (∀ c ∈ candidates,
       processCandidate profile pt (fraud_results c) (success_results c)
           current_year c ∈
         processCandidates profile pt fraud_results success_results
           current_year candidates) ∧
    (∀ (fr : Option FraudRisk) (sc : List SuccessCase)
       (candidate : MatchProfile),
       ((evaluate_moq profile candidate pt).1 = false ∨
        (evaluate_certifications profile candidate).required_passed = false) →
       (processCandidate profile pt fr sc current_year candidate).fit_score
           = 0 ∧
       ∃ reason,
         (processCandidate profile pt fr sc current_year
            candidate).breakdown = .failedGate reason ∧ reason ≠ "") := by
  refine ⟨List.length_map _ _, ?_, ?_⟩
  · intro c hc
    exact List.mem_map_of_mem _ hc
  · intro fr sc candidate h
    rcases hm : evaluate_moq profile candidate pt with ⟨gate, soft, ov, reason⟩
    cases gate with
    | false =>
      have hr : reason ≠ "" := by
        have := evaluate_moq_fail_reason profile candidate pt (by rw [hm])
        rw [hm] at this
        exact this
      unfold processCandidate
      rw [hm]
      simp only [Bool.not_false, if_true]
      exact ⟨rfl, reason, rfl, hr⟩
    | true =>
      rcases h with hgate | hcert
      · rw [hm] at hgate
        exact absurd hgate (by simp)
      · unfold processCandidate
        rw [hm]
        simp only [Bool.not_true, Bool.false_eq_true, if_false, hcert]
        exact ⟨rfl, _, rfl, cert_fail_reason_ne_empty _⟩

/-- Witness for C5: a buyer whose MOQ triples are exceeded fails the
gate, scores 0, and still yields a result with a reason. -/
theorem hard_gate_failure_zero_score_with_reason_witness :
    (evaluate_moq { moq := 10 } { moq := 100 } ProfileType.buyer).1 = false ∧
    (processCandidate { moq := 10 } ProfileType.buyer none [] 2026
       { moq := 100 }).fit_score = 0 ∧
    ∃ reason,
      (processCandidate { moq := 10 } ProfileType.buyer none [] 2026
         { moq := 100 }).breakdown = .failedGate reason ∧ reason ≠ "" :=
  have hgate : (evaluate_moq { moq := 10 } { moq := 100 }
      ProfileType.buyer).1 = false := by
    unfold evaluate_moq moqCapacityFail
    norm_num
  have h := (hard_gate_failure_zero_score_with_reason { moq := 10 }
    ProfileType.buyer (fun _ => none) (fun _ => []) 2026
    [{ moq := 100 }]).2.2 none [] { moq := 100 } (Or.inl hgate)
  ⟨hgate, h.1, h.2⟩

/-- C8: when the MOQ hard gates pass, the soft compatibility score is the
deviation-table function of the two quantities (≤20% → 1.0, ≤50% → 0.7,
≤100% → 0.4, else 0.2), and non-positive quantity information on either
side yields the neutral 0.5. -/
theorem moq_soft_score_deviation_table (profile candidate : MatchProfile)
    (pt : ProfileType) (h : (evaluate_moq profile candidate pt).1 = true) :
    (evaluate_moq profile candidate pt).2.1 =
      moqSoftSpec profile.moq candidate.moq ∧
    (¬(0 < profile.moq ∧ 0 < candidate.moq) →
      (evaluate_moq profile candidate pt).2.1 = 1/2) := by
  unfold evaluate_moq at h ⊢
  cases hcap : moqCapacityFail profile candidate pt with
  | some r => rw [hcap] at h; exact Bool.noConfusion h
  | none =>
    rw [hcap] at h
    cases hmov : moqMovFail profile candidate with
    | some r => rw [hmov] at h; exact Bool.noConfusion h
    | none =>
      constructor
      · show moqSoft profile.moq candidate.moq =
          moqSoftSpec profile.moq candidate.moq
        rfl
      · intro hq
        show moqSoft profile.moq candidate.moq = 1/2
        unfold moqSoft
        rw [if_neg hq]

/-- Witness for C8: quantities 100 vs 110 pass the gates and deviate by
10/110 ≤ 20%, giving soft score 1. -/
theorem moq_soft_score_deviation_table_witness :
    (evaluate_moq { moq := 100 } { moq := 110 } ProfileType.buyer).1 = true ∧
    (evaluate_moq { moq := 100 } { moq := 110 } ProfileType.buyer).2.1 =
      moqSoftSpec 100 110 :=
  have hgate : (evaluate_moq { moq := 100 } { moq := 110 }
      ProfileType.buyer).1 = true := by
    unfold evaluate_moq moqCapacityFail moqMovFail
    norm_num [pyOrQ, truthyQ]
  ⟨hgate,
   (moq_soft_score_deviation_table { moq := 100 } { moq := 110 }
      ProfileType.buyer hgate).1⟩

theorem ten_mul_zero_bonus (a b : ℚ) : 10 * (0 : ℚ) * a * b = 0 := by ring

theorem caseBonus_eq_spec (hs4 country_code : String) (year : ℤ)
    (c : SuccessCase) :
    calculate_success_bonus.caseBonus hs4 country_code year c =
      specCaseBonus hs4 country_code year c := by
  unfold calculate_success_bonus.caseBonus specCaseBonus
  by_cases hcm : strContains (pyUpper c.country) (pyUpper country_code) = true
  · rw [if_pos hcm]
    rfl
  · rw [if_neg hcm]
    exact (ten_mul_zero_bonus _ _).symm

theorem foldl_max_of_all_zero {α : Type} (f : α → ℚ) :
    ∀ (l : List α) (acc : ℚ), (∀ c ∈ l, f c = 0) → 0 ≤ acc →
      l.foldl (fun a c => max a (f c)) acc = acc := by
  intro l
  induction l with
  | nil => intro acc _ _; rfl
  | cons x xs ih =>
    intro acc hz hacc
    rw [List.foldl_cons]
    have hx : f x = 0 := hz x (List.mem_cons_self _ _)
    rw [hx, max_eq_left hacc]
    exact ih acc (fun c hc => hz c (List.mem_cons_of_mem _ hc)) hacc

/-- C9: the success-case bonus is the maximum (not the sum) over at most
5 historical cases of `10 * countryMatch * hsSimilarity * recency`, with
similarity in 0.6/0.8/1.0 and recency 1.0/0.6/0.3 by age bucket, capped
at 10; and when no case matches the candidate's country the bonus is 0. -/
theorem success_bonus_max_formula (hs_code country_code : String)
    (success_cases : List SuccessCase) (current_year : ℤ) :
    calculate_success_bonus hs_code country_code success_cases current_year =
      min 10
        (((success_cases.take 5).map
            (specCaseBonus (if hs_code ≠ "" then hs_code.take 4 else "")
              country_code current_year)).foldl max 0) ∧
    ((∀ c ∈ success_cases,
        strContains (pyUpper c.country) (pyUpper country_code) = false) →
      calculate_success_bonus hs_code country_code success_cases
        current_year = 0) := by
  have hmain : calculate_success_bonus hs_code country_code success_cases
      current_year =
      min 10
        (((success_cases.take 5).map
            (specCaseBonus (if hs_code ≠ "" then hs_code.take 4 else "")
              country_code current_year)).foldl max 0) := by
    unfold calculate_success_bonus
    by_cases hnil : success_cases = []
    · subst hnil
      rw [if_pos rfl]
      show (0 : ℚ) = min 10 0
      rw [min_eq_right (by norm_num : (0 : ℚ) ≤ 10)]
    · rw [if_neg hnil, List.foldl_map]
      have hfun :
          (fun (a : ℚ) c =>
            max a
              (specCaseBonus (if hs_code ≠ "" then hs_code.take 4 else "")
                country_code current_year c)) =
          (fun (a : ℚ) c =>
            max a
              (calculate_success_bonus.caseBonus
                (if hs_code ≠ "" then hs_code.take 4 else "")
                country_code current_year c)) := by
        funext a c
        rw [caseBonus_eq_spec]
      rw [hfun]
  refine ⟨hmain, ?_⟩
  intro hnone
  rw [hmain]
  have hz : ∀ c ∈ success_cases.take 5,
      specCaseBonus (if hs_code ≠ "" then hs_code.take 4 else "")
        country_code current_year c = 0 := by
    intro c hc
    have hmem := List.take_subset 5 success_cases hc
    have hcm := hnone c hmem
    unfold specCaseBonus
    rw [hcm]
    exact ten_mul_zero_bonus _ _
  rw [List.foldl_map,
      foldl_max_of_all_zero _ (success_cases.take 5) 0
        (fun c hc => hz c hc) le_rfl]
  exact min_eq_right (by norm_num)

/-- Witness for C9: no case matches the candidate country, so the bonus
is 0. -/
theorem success_bonus_max_formula_witness :
    calculate_success_bonus "123456" "US"
      [{ country := "VN" }, { country := "CN" }] 2026 = 0 :=
  (success_bonus_max_formula "123456" "US"
    [{ country := "VN" }, { country := "CN" }] 2026).2 (by decide)

theorem insert_lookup_same (st : CacheStore) (key : String) (e : CacheEntry) :
    (st.insert key e) key = some e := by
  unfold CacheStore.insert
  rw [if_pos rfl]

theorem erase_lookup_same (st : CacheStore) (key : String) :
    (st.erase key) key = none := by
  unfold CacheStore.erase
  rw [if_pos rfl]

/-- If the lookup key collides with the key just written (same normalized
key string) and the TTL is positive, a `get` at the write time returns
the entry just stored. Shared by the round-trip and key-collision
claims. -/
theorem cache_get_after_set_hit (st : CacheState) (now : ℤ)
    (hs hs' ec : String) (recs : List String) (expl : String)
    (hkey : make_key hs' ec = make_key hs ec) (httl : 0 < st.ttl_days) :
    (cache_get (cache_set st now hs ec recs expl) now hs' ec).1 =
      some { hs_code := hs, exporter_country := ec,
             recommendations := recs.take 20, explanation := expl,
             cached_at := now, expires_at := now + st.ttl_days } := by
  have hv : cache_is_valid now
      { hs_code := hs, exporter_country := ec,
        recommendations := recs.take 20, explanation := expl,
        cached_at := now, expires_at := now + st.ttl_days } = true := by
    unfold cache_is_valid
    simp only [decide_eq_true_eq]
    omega
  unfold cache_get cache_set
  simp only [hkey, insert_lookup_same, hv, if_true]

/-- C6: `set` immediately followed by `get` on the same key returns the
stored payload (HS code, exporter, recommendations truncated to 20,
explanation, timestamps); once the TTL has elapsed, `get` returns `none`
and lazily deletes the expired entry from both the memory and the file
tier. -/
theorem cache_roundtrip_and_expiry (st : CacheState) (now late : ℤ)
    (hs ec : String) (recs : List String) (expl : String) :
    (0 < st.ttl_days →
      (cache_get (cache_set st now hs ec recs expl) now hs ec).1 =
        some { hs_code := hs, exporter_country := ec,
               recommendations := recs.take 20, explanation := expl,
               cached_at := now, expires_at := now + st.ttl_days }) ∧
    (now + st.ttl_days ≤ late →
      (cache_get (cache_set st now hs ec recs expl) late hs ec).1 = none ∧
      (cache_get (cache_set st now hs ec recs expl) late hs ec).2.memory
        (make_key hs ec) = none ∧
      (cache_get (cache_set st now hs ec recs expl) late hs ec).2.files
        (make_key hs ec) = none) := by
  constructor
  · intro httl
    exact cache_get_after_set_hit st now hs hs ec recs expl rfl httl
  · intro hlate
    have hv : cache_is_valid late
        { hs_code := hs, exporter_country := ec,
          recommendations := recs.take 20, explanation := expl,
          cached_at := now, expires_at := now + st.ttl_days } = false := by
      unfold cache_is_valid
      simp only [decide_eq_false_iff_not, not_lt]
      omega
    unfold cache_get cache_set
    simp only [insert_lookup_same, hv, Bool.false_eq_true, if_false,
      erase_lookup_same]
    exact ⟨trivial, trivial, trivial⟩

/-- Witness for C6 with a 14-day TTL: an immediate `get` hits, a `get`
14 days later misses. -/
theorem cache_roundtrip_and_expiry_witness :
    (cache_get (cache_set ⟨fun _ => none, fun _ => none, 14⟩ 0 "851713" "KR"
        ["a", "b"] "ex") 0 "851713" "KR").1 =
      some { hs_code := "851713", exporter_country := "KR",
             recommendations := ["a", "b"], explanation := "ex",
             cached_at := 0, expires_at := 14 } ∧
    (cache_get (cache_set ⟨fun _ => none, fun _ => none, 14⟩ 0 "851713" "KR"
        ["a", "b"] "ex") 14 "851713" "KR").1 = none :=
  have h := cache_roundtrip_and_expiry ⟨fun _ => none, fun _ => none, 14⟩
    0 14 "851713" "KR" ["a", "b"] "ex"
  ⟨(h.1 (by decide)).trans (by decide), (h.2 (by decide)).1⟩

/-- C10: the cache key depends only on the first 4 characters of the HS
code plus the exporter country (an empty HS code maps to prefix
`"0000"`): storing under one HS code and reading under another with the
same 4-character prefix and exporter returns the payload stored for the
first — distinct HS codes collide onto one cache entry. -/
theorem cache_key_hs_prefix_collision (hs1 hs2 ec : String)
    (st : CacheState) (now : ℤ) (recs : List String) (expl : String)
    (hpre : hsKeyPre hs1 = hsKeyPre hs2) (httl : 0 < st.ttl_days) :
    make_key hs1 ec = make_key hs2 ec ∧
    hsKeyPre "" = "0000" ∧
    (cache_get (cache_set st now hs1 ec recs expl) now hs2 ec).1 =
      some { hs_code := hs1, exporter_country := ec,
             recommendations := recs.take 20, explanation := expl,
             cached_at := now, expires_at := now + st.ttl_days } := by
  have hkey : make_key hs2 ec = make_key hs1 ec := by
    unfold make_key
    rw [hpre]
  exact ⟨hkey.symm, by decide,
    cache_get_after_set_hit st now hs1 hs2 ec recs expl hkey httl⟩

/-- Witness for C10: HS codes 123456 and 123499 share the prefix 1234 and
hit the same cache entry. -/
theorem cache_key_hs_prefix_collision_witness :
    make_key "123456" "KR" = make_key "123499" "KR" ∧
    (cache_get (cache_set ⟨fun _ => none, fun _ => none, 14⟩ 0 "123456" "KR"
        ["r1"] "ex") 0 "123499" "KR").1 =
      some { hs_code := "123456", exporter_country := "KR",
             recommendations := ["r1"], explanation := "ex",
             cached_at := 0, expires_at := 14 } :=
  have h := cache_key_hs_prefix_collision "123456" "123499" "KR"
    ⟨fun _ => none, fun _ => none, 14⟩ 0 ["r1"] "ex" (by decide) (by decide)
  ⟨h.1, h.2.2.trans (by decide)⟩

/-- C7: the confidence scalar always lies in [0.1, 1.0], and flipping
`fallback_used` from false to true never increases it, all other
arguments held fixed. -/
theorem confidence_bounds_and_fallback_monotone (context : String)
    (missing_fields data_sources_used : List String) (kotra_status : String) :
    (∀ fallback_used : Bool,
       1/10 ≤ confidence_calculate context missing_fields data_sources_used
           fallback_used kotra_status ∧
       confidence_calculate context missing_fields data_sources_used
           fallback_used kotra_status ≤ 1) ∧
    confidence_calculate context missing_fields data_sources_used true
        kotra_status ≤
      confidence_calculate context missing_fields data_sources_used false
        kotra_status := by
  constructor
  · intro fb
    unfold confidence_calculate
    exact ⟨le_max_left _ _, max_le (by norm_num) (min_le_left _ _)⟩
  · unfold confidence_calculate
    simp only
    apply max_le_max le_rfl
    apply min_le_min le_rfl
    by_cases hk : kotra_status = "unavailable"
    · simp only [hk, Bool.false_eq_true, if_false, reduceIte]
      linarith
    · simp only [hk, Bool.false_eq_true, if_false, reduceIte]
      linarith

end Spec2Proof
